import Mathlib

/-!
Shallow embedding of the inventory risk-assessment core of the
Codettes_KLH repository.  Python floats are modelled as rationals (ℚ);
Python string formatting of numbers is modelled by exact decimal helpers.

Embedded functions (from `src/inventory_risk_check.py` and
`src/intelligence.py`):
  * `detect_stockout_risk`   (inventory_risk_check.py, lines 16-85)
  * `check_inventory_risk`   (inventory_risk_check.py, lines 153-307)
  * `run_full_assessment`    (inventory_risk_check.py, lines 360-464)
  * `get_prescriptive_json`  (intelligence.py, lines 24-151)
The Prophet forecaster, the filesystem loader and the external AI call are
external collaborators and enter the embedding as parameters.
-/

set_option maxRecDepth 10000

/-- Round-half-even of a rational to the nearest integer: the rounding used
by Python's built-in `round` (and by `:.2f` formatting) on values that the
binary floats represent exactly. -/
def roundHalfEven (q : ℚ) : ℤ :=
  if Int.fract q = 1/2 then (if 2 ∣ ⌊q⌋ then ⌊q⌋ else ⌊q⌋ + 1) else round q

/-- Python `round(x, 2)`: round to two decimal places, ties to even. -/
def pyRound2 (q : ℚ) : ℚ := (roundHalfEven (100 * q) : ℚ) / 100

/-- Python `int(x)` applied to a float: truncation toward zero. -/
def pyTrunc (q : ℚ) : ℤ := if 0 ≤ q then ⌊q⌋ else ⌈q⌉

/-- Python `f"{x:.2f}"`: fixed two-decimal rendering of a number. -/
def fmt2 (q : ℚ) : String :=
  let n : ℤ := roundHalfEven (100 * q)
  let sign := if n < 0 then "-" else ""
  let m := n.natAbs
  let frac := m % 100
  sign ++ toString (m / 100) ++ "." ++
    (if frac < 10 then "0" ++ toString frac else toString frac)

/-- Python `str(x)` on a float, abstracted: an integral value renders as
`n.0` exactly as Python prints it; other rationals render as a fraction
(the shortest-roundtrip float repr is not modelled). -/
def pyFloatStr (q : ℚ) : String :=
  if q.den = 1 then toString q.num ++ ".0"
  else toString q.num ++ "/" ++ toString q.den

/-- Python `str(list_of_str)`: bracketed, comma separated, single quotes. -/
def pyListRepr (l : List String) : String :=
  "[" ++ String.intercalate ", " (l.map (fun s => "\x27" ++ s ++ "\x27")) ++ "]"

/-- The `alert_level` values of `detect_stockout_risk` (the Python code uses
the strings "NONE", "ALERT", "CRITICAL"). -/
inductive AlertLevel where
  | NONE
  | ALERT
  | CRITICAL
deriving DecidableEq, Repr

/-- Severity order of the alert levels, NONE ≤ ALERT ≤ CRITICAL. -/
def severity : AlertLevel → ℕ
  | .NONE => 0
  | .ALERT => 1
  | .CRITICAL => 2

/-- The dictionary returned by `detect_stockout_risk`
(inventory_risk_check.py, lines 75-85). -/
structure StockoutAssessment where
  has_stockout_risk : Bool
  alert_level : AlertLevel
  predicted_demand : ℚ
  demand_with_buffer : ℚ
  buffer_amount : ℚ
  buffer_percent : ℚ
  current_stock : ℚ
  units_needed : ℚ
  message : String
deriving DecidableEq, Repr

/-- `detect_stockout_risk(predicted_demand, current_stock,
safety_buffer_percent)` of inventory_risk_check.py, lines 16-85, translated
field by field (floats as ℚ, `round(x, 2)` as `pyRound2`, f-string
`:.2f` slots as `fmt2`). -/
def detect_stockout_risk (predicted_demand current_stock : ℚ)
    (safety_buffer_percent : ℚ := 10) : StockoutAssessment :=
  let buffer_amount := predicted_demand * (safety_buffer_percent / 100)
  let demand_with_buffer := predicted_demand + buffer_amount
  let units_needed := max 0 (demand_with_buffer - current_stock)
  let branch : Bool × AlertLevel × String :=
    if current_stock ≥ demand_with_buffer then
      (false, .NONE,
        "Stock level sufficient. Current: " ++ fmt2 current_stock ++
        ", Required: " ++ fmt2 demand_with_buffer)
    else if current_stock ≥ predicted_demand then
      (true, .ALERT,
        "RESTOCK_ALERT: Stock may fall below safety threshold. Current: " ++
        fmt2 current_stock ++ ", Required (with " ++
        pyFloatStr safety_buffer_percent ++ "% buffer): " ++
        fmt2 demand_with_buffer ++ ", Need to order: " ++
        fmt2 units_needed ++ " units")
    else
      (true, .CRITICAL,
        "CRITICAL_RESTOCK_ALERT: Stock insufficient for predicted demand! Current: " ++
        fmt2 current_stock ++ ", Predicted demand: " ++
        fmt2 predicted_demand ++ ", With safety buffer: " ++
        fmt2 demand_with_buffer ++ ", Need to order: " ++
        fmt2 units_needed ++ " units IMMEDIATELY")
  { has_stockout_risk := branch.1
    alert_level := branch.2.1
    predicted_demand := pyRound2 predicted_demand
    demand_with_buffer := pyRound2 demand_with_buffer
    buffer_amount := pyRound2 buffer_amount
    buffer_percent := safety_buffer_percent
    current_stock := pyRound2 current_stock
    units_needed := pyRound2 units_needed
    message := branch.2.2 }

example : (detect_stockout_risk 100 120 10).alert_level = .NONE := by
  norm_num [detect_stockout_risk]
example : (detect_stockout_risk 100 105 10).alert_level = .ALERT := by
  norm_num [detect_stockout_risk]
example : (detect_stockout_risk 100 105 10).units_needed = 5 := by
  norm_num [detect_stockout_risk, pyRound2, roundHalfEven, Int.fract, round_eq]
example : (detect_stockout_risk 100 80 10).alert_level = .CRITICAL := by
  norm_num [detect_stockout_risk]
example : (detect_stockout_risk 100 80 10).units_needed = 30 := by
  norm_num [detect_stockout_risk, pyRound2, roundHalfEven, Int.fract, round_eq]

lemma pyRound2_zero : pyRound2 0 = 0 := by
  norm_num [pyRound2, roundHalfEven, Int.fract, round_eq]

/-- C1 (counterexample): the claim says the returned `units_needed` equals
`max(0, predicted_demand*(1+buffer_percent/100) - current_stock)` exactly,
but the code returns `round(units_needed, 2)`: at demand 1, stock 0 and
buffer 0.1 % the exact value is 1.001 while the function returns 1.0. -/
theorem detect_units_needed_exact_formula_fails :
    (detect_stockout_risk 1 0 (1/10)).units_needed ≠
      max 0 ((1 : ℚ) * (1 + (1/10)/100) - 0) := by
  norm_num [detect_stockout_risk, pyRound2, roundHalfEven, Int.fract, round_eq]

/-- C1 (amended): for all nonnegative inputs, `detect_stockout_risk` returns
`units_needed = max(0, predicted_demand*(1+buffer_percent/100) -
current_stock)` rounded to two decimal places, and `alert_level` is chosen
by the priority rules: NONE when `current_stock ≥ demand_with_buffer`, else
ALERT when `current_stock ≥ predicted_demand`, else CRITICAL. -/
theorem detect_units_needed_and_alert_level (d cs b : ℚ)
    (hd : 0 ≤ d) (hcs : 0 ≤ cs) (hb : 0 ≤ b) :
    (detect_stockout_risk d cs b).units_needed =
      pyRound2 (max 0 (d * (1 + b/100) - cs)) ∧
    (detect_stockout_risk d cs b).alert_level =
      (if d * (1 + b/100) ≤ cs then .NONE
       else if d ≤ cs then .ALERT else .CRITICAL) := by
  have key : d + d * (b/100) = d * (1 + b/100) := by ring
  constructor
  · simp only [detect_stockout_risk]
    rw [key]
  · simp only [detect_stockout_risk]
    by_cases h1 : d * (1 + b/100) ≤ cs
    · have h1' : cs ≥ d + d * (b/100) := by rw [key]; exact h1
      simp [h1, h1']
    · have h1' : ¬ (cs ≥ d + d * (b/100)) := by rw [key]; exact h1
      by_cases h2 : d ≤ cs
      · simp [h1, h1', h2, ge_iff_le]
      · simp [h1, h1', h2, ge_iff_le]

/-- C1 witness: the amended theorem at demand 100, stock 105, buffer 10 %. -/
theorem detect_units_needed_and_alert_level_witness :
    (detect_stockout_risk 100 105 10).units_needed =
      pyRound2 (max 0 (100 * (1 + 10/100) - 105)) ∧
    (detect_stockout_risk 100 105 10).alert_level =
      (if (100 : ℚ) * (1 + 10/100) ≤ 105 then .NONE
       else if (100 : ℚ) ≤ 105 then .ALERT else .CRITICAL) :=
  detect_units_needed_and_alert_level 100 105 10 (by decide) (by decide) (by decide)

/-- C3: holding demand and buffer fixed, increasing `current_stock` never
increases the alert severity of `detect_stockout_risk`, with the ordering
NONE ≤ ALERT ≤ CRITICAL. -/
theorem alert_severity_antitone_in_stock (d b s1 s2 : ℚ) (h : s1 ≤ s2) :
    severity (detect_stockout_risk d s2 b).alert_level ≤
      severity (detect_stockout_risk d s1 b).alert_level := by
  simp only [detect_stockout_risk]
  split_ifs <;> simp_all [severity, ge_iff_le] <;> linarith

/-- C3 witness: stock 50 ≤ 120 at demand 100, buffer 10 %. -/
theorem alert_severity_antitone_in_stock_witness :
    severity (detect_stockout_risk 100 120 10).alert_level ≤
      severity (detect_stockout_risk 100 50 10).alert_level :=
  alert_severity_antitone_in_stock 100 10 50 120 (by decide)

/-- C9: `detect_stockout_risk` is deterministic and side-effect free — it is
a pure function of its three arguments, so two calls with equal inputs
return equal assessments (every field equal). -/
theorem detect_stockout_risk_deterministic (d1 s1 b1 d2 s2 b2 : ℚ)
    (hd : d1 = d2) (hs : s1 = s2) (hb : b1 = b2) :
    detect_stockout_risk d1 s1 b1 = detect_stockout_risk d2 s2 b2 := by
  rw [hd, hs, hb]

/-- C9 witness: two identical calls at demand 100, stock 120, buffer 10 %. -/
theorem detect_stockout_risk_deterministic_witness :
    detect_stockout_risk 100 120 10 = detect_stockout_risk 100 120 10 :=
  detect_stockout_risk_deterministic 100 120 10 100 120 10 rfl rfl rfl

/-- The forecast dictionary fields of `predict_next_day_usage` that
`check_inventory_risk` reads (inventory_risk_check.py, lines 170-174 and
301; `next_date` and `model_details` are never consumed by the assessor). -/
structure Forecast where
  item_name : String
  predicted_value : ℚ
  upper_bound : ℚ
  lower_bound : ℚ
  confidence_interval_width : ℚ
deriving DecidableEq, Repr

/-- One row of the inventory dataset, with the columns the embedded code
reads (`Date` as an ordinal day number, `Item_Name`, `Current_Stock`,
`Daily_Usage`; the remaining descriptive CSV columns are never read). -/
structure StockRow where
  date : ℕ
  item_name : String
  current_stock : ℚ
  daily_usage : ℚ
deriving DecidableEq, Repr

/-- Ordering of dataset rows by date, for `sort_values('Date')`. -/
def dateLE (a b : StockRow) : Prop := a.date ≤ b.date

instance : DecidableRel dateLE := fun a b => Nat.decLe a.date b.date

/-- `latest_stock[latest_stock['Item_Name'] == item_name]['Current_Stock']`
where `latest_stock = current_stock_df.sort_values('Date')
.groupby('Item_Name').last()` (inventory_risk_check.py, lines 166 and
177-182): the stock value of the last date-sorted row of the item, `none`
when the item has no row. -/
def latest_stock_lookup (df : List StockRow) (nm : String) : Option ℚ :=
  (((df.insertionSort dateLE).reverse.find? (fun r => r.item_name == nm)).map
    (fun r => r.current_stock))

/-- The `waste_risk` classification strings (inventory_risk_check.py,
lines 217-222). -/
inductive WasteRisk where
  | High
  | Moderate
  | Low
deriving DecidableEq, Repr

/-- The `risk_level` strings (inventory_risk_check.py, lines 199-204;
`None` is the string "None", not a missing value). -/
inductive RiskLevel where
  | Critical
  | Warning
  | None
deriving DecidableEq, Repr

/-- The `status` strings (inventory_risk_check.py, lines 207-212). -/
inductive Status where
  | RESTOCK
  | OK
deriving DecidableEq, Repr

/-- `waste_ratio = current_stock / predicted_value if predicted_value > 0
else 0` (inventory_risk_check.py, line 215). -/
def waste_ratio_of (current_stock predicted_value : ℚ) : ℚ :=
  if 0 < predicted_value then current_stock / predicted_value else 0

/-- The nested `stockout_detection` dictionary of an action plan
(inventory_risk_check.py, lines 288-297). -/
structure StockoutInfo where
  has_stockout_risk : Bool
  alert_level : AlertLevel
  predicted_demand : ℚ
  demand_with_buffer : ℚ
  buffer_amount : ℚ
  buffer_percent : ℚ
  units_needed : ℚ
  alert_message : String
deriving DecidableEq, Repr

/-- The nested `analysis_metrics` dictionary of an action plan
(inventory_risk_check.py, lines 298-302).  `waste_risk_points` is
`max(0, risk_score - 50)`, which ℕ subtraction renders directly. -/
structure AnalysisMetrics where
  stock_out_risk_points : ℕ
  waste_risk_points : ℕ
  forecast_confidence : String
deriving DecidableEq, Repr

/-- The action-plan dictionary (inventory_risk_check.py, lines 273-303). -/
structure ActionPlan where
  item_name : String
  current_stock : ℚ
  predicted_value : ℚ
  upper_bound : ℚ
  lower_bound : ℚ
  status : Status
  risk_level : RiskLevel
  waste_risk : WasteRisk
  shortfall : ℚ
  surplus : ℚ
  waste_ratio : ℚ
  recommended_action : String
  risk_score : ℕ
  stockout_detection : StockoutInfo
  analysis_metrics : AnalysisMetrics
deriving DecidableEq, Repr

/-- The loop body of `check_inventory_risk` for one forecast with its
current stock (inventory_risk_check.py, lines 170-303), translated
statement by statement. -/
def buildActionPlan (forecast : Forecast) (current_stock : ℚ)
    (safety_buffer_percent : ℚ) : ActionPlan :=
  let predicted_value := forecast.predicted_value
  let upper_bound := forecast.upper_bound
  let lower_bound := forecast.lower_bound
  let sd := detect_stockout_risk predicted_value current_stock safety_buffer_percent
  let surplus := max 0 (current_stock - upper_bound)
  let risk_level : RiskLevel :=
    if sd.alert_level = .CRITICAL then .Critical
    else if sd.alert_level = .ALERT then .Warning
    else .None
  let status_shortfall : Status × ℚ :=
    if sd.has_stockout_risk then (.RESTOCK, sd.units_needed) else (.OK, 0)
  let waste_ratio := waste_ratio_of current_stock predicted_value
  let waste_risk : WasteRisk :=
    if 2 < waste_ratio then .High
    else if 13/10 < waste_ratio then .Moderate
    else .Low
  let risk_score : ℕ :=
    min 100
      ((if current_stock < lower_bound then 50
        else if current_stock < predicted_value then 35
        else if current_stock < upper_bound then 20
        else 0) +
       (if 2 < waste_ratio then 40
        else if 3/2 < waste_ratio then 25
        else if 13/10 < waste_ratio then 15
        else 0))
  let recommended_action : String :=
    if sd.alert_level = .CRITICAL then
      "üö® CRITICAL_RESTOCK_ALERT: " ++ fmt2 sd.units_needed ++
      " units needed IMMEDIATELY. Current stock (" ++ fmt2 current_stock ++
      ") is insufficient for predicted demand (" ++ fmt2 predicted_value ++
      ") plus 10% safety buffer (" ++ fmt2 sd.buffer_amount ++ ")."
    else if sd.alert_level = .ALERT then
      "‚ö†Ô∏è  RESTOCK_ALERT: Order " ++ fmt2 sd.units_needed ++
      " units to maintain safety buffer. Current stock covers demand but falls short of safety requirement."
    else if waste_risk = .High then
      "Review stock management. Consider reducing order quantities. Current stock (" ++
      fmt2 current_stock ++ ") far exceeds predicted usage (" ++
      fmt2 predicted_value ++ ")."
    else if waste_risk = .Moderate then
      "Monitor usage patterns. Current stock is higher than typical usage. Adjust reorder quantities if possible."
    else
      "Continue current inventory management practices."
  { item_name := forecast.item_name
    current_stock := pyRound2 current_stock
    predicted_value := predicted_value
    upper_bound := upper_bound
    lower_bound := lower_bound
    status := status_shortfall.1
    risk_level := risk_level
    waste_risk := waste_risk
    shortfall := if 0 < status_shortfall.2 then pyRound2 status_shortfall.2 else 0
    surplus := if 0 < surplus then pyRound2 surplus else 0
    waste_ratio := pyRound2 waste_ratio
    recommended_action := recommended_action
    risk_score := risk_score
    stockout_detection :=
      { has_stockout_risk := sd.has_stockout_risk
        alert_level := sd.alert_level
        predicted_demand := sd.predicted_demand
        demand_with_buffer := sd.demand_with_buffer
        buffer_amount := sd.buffer_amount
        buffer_percent := sd.buffer_percent
        units_needed := sd.units_needed
        alert_message := sd.message }
    analysis_metrics :=
      { stock_out_risk_points := min 50 risk_score
        waste_risk_points := risk_score - 50
        forecast_confidence :=
          if forecast.confidence_interval_width < 10 then "High"
          else if forecast.confidence_interval_width < 15 then "Medium"
          else "Low" } }

/-- `check_inventory_risk(forecast_results, current_stock_df,
safety_buffer_percent)` (inventory_risk_check.py, lines 153-307): `none`
models the `return None` on an empty forecast list; items without a stock
record are skipped by the `continue` at line 180. -/
def check_inventory_risk (forecast_results : List Forecast)
    (current_stock_df : List StockRow)
    (safety_buffer_percent : ℚ := 10) : Option (List ActionPlan) :=
  if forecast_results.isEmpty then none
  else
    some (forecast_results.filterMap (fun f =>
      (latest_stock_lookup current_stock_df f.item_name).map
        (fun cs => buildActionPlan f cs safety_buffer_percent)))

lemma latest_stock_lookup_eq_some {df : List StockRow} {nm : String} {cs : ℚ}
    (h : latest_stock_lookup df nm = some cs) :
    ∃ r ∈ df, r.item_name = nm := by
  rcases Option.map_eq_some'.mp h with ⟨r, hfind, _⟩
  refine ⟨r, ?_, ?_⟩
  · have hmem := List.mem_of_find?_eq_some hfind
    rw [List.mem_reverse] at hmem
    exact (List.perm_insertionSort dateLE df).mem_iff.mp hmem
  · have := List.find?_some hfind
    simpa using this

lemma latest_stock_lookup_isSome_of_mem {df : List StockRow} {nm : String}
    {r : StockRow} (hr : r ∈ df) (hname : r.item_name = nm) :
    (latest_stock_lookup df nm).isSome := by
  have hmem : r ∈ (df.insertionSort dateLE).reverse := by
    rw [List.mem_reverse]
    exact (List.perm_insertionSort dateLE df).mem_iff.mpr hr
  have hfind : (((df.insertionSort dateLE).reverse.find?
      (fun r => r.item_name == nm))).isSome := by
    rw [List.find?_isSome]
    exact ⟨r, hmem, by simpa using hname⟩
  simpa [latest_stock_lookup] using hfind

/-- C2: for every action plan, the `risk_score` is in [0, 100] (it is a ℕ,
so 0 ≤ risk_score holds by type) and equals the sum of the stock-out
component (50 / 35 / 20 / 0 against the forecast bounds) and the waste
component (40 / 25 / 15 / 0 against the waste ratio), capped at 100. -/
theorem risk_score_bounded_and_capped_sum (f : Forecast) (cs buf : ℚ)
    (h1 : f.lower_bound ≤ f.predicted_value)
    (h2 : f.predicted_value ≤ f.upper_bound) (h3 : 0 ≤ cs) :
    (buildActionPlan f cs buf).risk_score ≤ 100 ∧
    (buildActionPlan f cs buf).risk_score =
      min 100
        ((if cs < f.lower_bound then 50
          else if cs < f.predicted_value then 35
          else if cs < f.upper_bound then 20
          else 0) +
         (if 2 < waste_ratio_of cs f.predicted_value then 40
          else if 3/2 < waste_ratio_of cs f.predicted_value then 25
          else if 13/10 < waste_ratio_of cs f.predicted_value then 15
          else 0)) := by
  constructor
  · exact Nat.min_le_left _ _
  · rfl

/-- C2 witness: the bound and the component decomposition at the concrete
forecast (100, bounds 80-120, width 20) with stock 50. -/
theorem risk_score_bounded_and_capped_sum_witness :
    (buildActionPlan ⟨"Rice", 100, 120, 80, 20⟩ 50 10).risk_score ≤ 100 ∧
    (buildActionPlan ⟨"Rice", 100, 120, 80, 20⟩ 50 10).risk_score =
      min 100
        ((if (50 : ℚ) < (80 : ℚ) then 50
          else if (50 : ℚ) < (100 : ℚ) then 35
          else if (50 : ℚ) < (120 : ℚ) then 20
          else 0) +
         (if 2 < waste_ratio_of 50 100 then 40
          else if 3/2 < waste_ratio_of 50 100 then 25
          else if 13/10 < waste_ratio_of 50 100 then 15
          else 0)) :=
  risk_score_bounded_and_capped_sum ⟨"Rice", 100, 120, 80, 20⟩ 50 10
    (by decide) (by decide) (by decide)

/-- C4: when a forecast's `predicted_value` is exactly 0, the action plan
carries `waste_ratio = 0` (the guard at line 215 avoids the division) and
the item is classified as Low waste risk. -/
theorem zero_predicted_value_waste_ratio_zero (f : Forecast) (cs buf : ℚ)
    (h : f.predicted_value = 0) :
    (buildActionPlan f cs buf).waste_ratio = 0 ∧
    (buildActionPlan f cs buf).waste_risk = .Low := by
  have hwr : waste_ratio_of cs f.predicted_value = 0 := by
    simp [waste_ratio_of, h]
  constructor
  · show pyRound2 (waste_ratio_of cs f.predicted_value) = 0
    rw [hwr, pyRound2_zero]
  · show (if 2 < waste_ratio_of cs f.predicted_value then WasteRisk.High
      else if 13/10 < waste_ratio_of cs f.predicted_value then WasteRisk.Moderate
      else WasteRisk.Low) = WasteRisk.Low
    rw [hwr]
    norm_num

/-- C4 witness: a zero forecast with stock 7. -/
theorem zero_predicted_value_waste_ratio_zero_witness :
    (buildActionPlan ⟨"Milk", 0, 5, -5, 5⟩ 7 10).waste_ratio = 0 ∧
    (buildActionPlan ⟨"Milk", 0, 5, -5, 5⟩ 7 10).waste_risk = .Low :=
  zero_predicted_value_waste_ratio_zero ⟨"Milk", 0, 5, -5, 5⟩ 7 10 rfl

/-- C5 (counterexample): the claim says the plan's `surplus` equals
`max(0, current_stock - upper_bound)` exactly, but the code reports
`round(surplus, 2)`: with stock 0.125 and upper bound 0 the exact surplus
is 0.125 while the plan carries 0.12. -/
theorem surplus_exact_formula_fails :
    (buildActionPlan ⟨"Paneer", 0, 0, 0, 0⟩ (1/8) 10).surplus ≠
      max 0 ((1/8 : ℚ) - 0) := by
  show (if 0 < max 0 ((1/8 : ℚ) - 0)
    then pyRound2 (max 0 ((1/8 : ℚ) - 0)) else 0) ≠ max 0 ((1/8 : ℚ) - 0)
  norm_num [max_def, pyRound2, roundHalfEven, Int.fract, round_eq]

/-- C5 (amended): the assessor computes `surplus = max(0, current_stock -
upper_bound)` and reports it rounded to two decimals (0 when not positive);
`waste_risk` is High when the waste ratio exceeds 2.0, Moderate above 1.3,
else Low; and the scenario stock 300, predicted 100, upper bound 120 yields
waste_ratio 3.0, High waste risk and surplus 180. -/
theorem surplus_rounded_and_waste_risk_classification (f : Forecast)
    (cs buf : ℚ) :
    (buildActionPlan f cs buf).surplus =
      (if 0 < max 0 (cs - f.upper_bound)
       then pyRound2 (max 0 (cs - f.upper_bound)) else 0) ∧
    (buildActionPlan f cs buf).waste_risk =
      (if 2 < waste_ratio_of cs f.predicted_value then .High
       else if 13/10 < waste_ratio_of cs f.predicted_value then .Moderate
       else .Low) ∧
    (buildActionPlan ⟨"Tomato", 100, 120, 80, 20⟩ 300 10).waste_ratio = 3 ∧
    (buildActionPlan ⟨"Tomato", 100, 120, 80, 20⟩ 300 10).waste_risk = .High ∧
    (buildActionPlan ⟨"Tomato", 100, 120, 80, 20⟩ 300 10).surplus = 180 := by
  refine ⟨rfl, rfl, ?_, ?_, ?_⟩
  · show pyRound2 (waste_ratio_of 300 100) = 3
    norm_num [waste_ratio_of, pyRound2, roundHalfEven, Int.fract, round_eq]
  · show (if 2 < waste_ratio_of 300 100 then WasteRisk.High
      else if 13/10 < waste_ratio_of 300 100 then WasteRisk.Moderate
      else WasteRisk.Low) = WasteRisk.High
    norm_num [waste_ratio_of]
  · show (if 0 < max 0 ((300 : ℚ) - 120)
      then pyRound2 (max 0 ((300 : ℚ) - 120)) else 0) = 180
    norm_num [max_def, pyRound2, roundHalfEven, Int.fract, round_eq]

/-- C6: a forecast item with no record in the stock data is silently
skipped — `check_inventory_risk` emits no plan for it and still assesses
every item that does have a stock record. -/
theorem missing_stock_record_skipped (fs : List Forecast)
    (df : List StockRow) (buf : ℚ) (nm : String) (plans : List ActionPlan)
    (hnm : ∀ r ∈ df, r.item_name ≠ nm)
    (hrun : check_inventory_risk fs df buf = some plans) :
    (∀ p ∈ plans, p.item_name ≠ nm) ∧
    (∀ f ∈ fs, (∃ r ∈ df, r.item_name = f.item_name) →
      ∃ p ∈ plans, p.item_name = f.item_name) := by
  unfold check_inventory_risk at hrun
  split at hrun
  · exact absurd hrun (by simp)
  · injection hrun with hplans
    subst hplans
    constructor
    · intro p hp hpname
      rcases List.mem_filterMap.mp hp with ⟨f, _, hstep⟩
      rcases Option.map_eq_some'.mp hstep with ⟨cs, hlook, hbuild⟩
      have hname : p.item_name = f.item_name := by rw [← hbuild]; rfl
      rcases latest_stock_lookup_eq_some hlook with ⟨r, hr, hrnm⟩
      exact hnm r hr (by rw [hrnm, ← hname, hpname])
    · rintro f hf ⟨r, hr, hrnm⟩
      have hsome := latest_stock_lookup_isSome_of_mem hr hrnm
      obtain ⟨cs, hcs⟩ := Option.isSome_iff_exists.mp hsome
      refine ⟨buildActionPlan f cs buf, ?_, rfl⟩
      exact List.mem_filterMap.mpr ⟨f, hf, by rw [hcs]; rfl⟩

/-- C6 witness: a forecast for Butter, absent from the stock rows, is
skipped while Paneer (present) is still assessed. -/
theorem missing_stock_record_skipped_witness :
    (∀ p ∈ [buildActionPlan ⟨"Paneer", 100, 120, 80, 20⟩ 150 10],
      p.item_name ≠ "Butter") ∧
    (∀ f ∈ [(⟨"Butter", 50, 60, 40, 10⟩ : Forecast),
            ⟨"Paneer", 100, 120, 80, 20⟩],
      (∃ r ∈ [(⟨1, "Paneer", 150, 40⟩ : StockRow)],
        r.item_name = f.item_name) →
      ∃ p ∈ [buildActionPlan ⟨"Paneer", 100, 120, 80, 20⟩ 150 10],
        p.item_name = f.item_name) :=
  missing_stock_record_skipped
    [⟨"Butter", 50, 60, 40, 10⟩, ⟨"Paneer", 100, 120, 80, 20⟩]
    [⟨1, "Paneer", 150, 40⟩] 10 "Butter"
    [buildActionPlan ⟨"Paneer", 100, 120, 80, 20⟩ 150 10]
    (by decide) (by rfl)

/-- The `summary_statistics` dictionary of a successful run
(inventory_risk_check.py, lines 432-447; the date range is abstracted to
the `Option` min/max of the dataset's day ordinals). -/
structure SummaryStats where
  total_items_assessed : ℕ
  items_requiring_restock : ℕ
  critical_stockout_alerts : ℕ
  restock_alerts : ℕ
  critical_risk_items : ℕ
  warning_risk_items : ℕ
  high_waste_risk_items : ℕ
  average_risk_score : ℚ
  total_shortfall : ℚ
  safety_buffer_percent : ℚ
  data_start_date : Option ℕ
  data_end_date : Option ℕ
deriving DecidableEq, Repr

/-- The summary-statistics computation of `run_full_assessment`
(inventory_risk_check.py, lines 428-447). -/
def summary_statistics (plans : List ActionPlan) (df : List StockRow)
    (buf : ℚ) : SummaryStats :=
  { total_items_assessed := plans.length
    items_requiring_restock := plans.countP (fun p => p.status == .RESTOCK)
    critical_stockout_alerts :=
      plans.countP (fun p => p.stockout_detection.alert_level == .CRITICAL)
    restock_alerts :=
      plans.countP (fun p => p.stockout_detection.alert_level == .ALERT)
    critical_risk_items := plans.countP (fun p => p.risk_level == .Critical)
    warning_risk_items := plans.countP (fun p => p.risk_level == .Warning)
    high_waste_risk_items := plans.countP (fun p => p.waste_risk == .High)
    average_risk_score :=
      pyRound2 ((plans.map (fun p => (p.risk_score : ℚ))).sum /
        (plans.length : ℚ))
    total_shortfall := pyRound2 ((plans.map (fun p => p.shortfall)).sum)
    safety_buffer_percent := buf
    data_start_date := (df.map (fun r => r.date)).min?
    data_end_date := (df.map (fun r => r.date)).max? }

/-- The return dictionary of `run_full_assessment`: either
`{'status': 'success', 'data': ...}` or `{'status': 'error', 'message',
'error_details'}` (inventory_risk_check.py, lines 373-464). -/
inductive RunResult where
  | success (action_plans : List ActionPlan)
      (summary_stats : SummaryStats)
      (forecasting_errors : Option (List String))
  | error (message : String) (error_details : String)
deriving DecidableEq, Repr

/-- `run_full_assessment(items_to_forecast, safety_buffer_percent)`
(inventory_risk_check.py, lines 360-464).  The external collaborators are
parameters: `forecaster` stands for `predict_next_day_usage(df, ·)`
(Prophet), and `loaded` for the outcome of `load_inventory_data`
(`Except.error` carries the `FileNotFoundError` text). -/
def run_full_assessment (forecaster : String → Option Forecast)
    (loaded : Except String (List StockRow))
    (items_to_forecast : Option (List String) := none)
    (safety_buffer_percent : ℚ := 10) : RunResult :=
  let items :=
    items_to_forecast.getD ["Paneer", "Chicken", "Tomato", "Milk", "Rice"]
  match loaded with
  | .error e => .error "Failed to load inventory data" e
  | .ok df =>
    let forecast_results := items.filterMap forecaster
    let forecasting_errors := items.filter (fun i => (forecaster i).isNone)
    if forecast_results.isEmpty then
      .error ("Failed to generate forecasts for any items. Tried: " ++
          pyListRepr items)
        ("Failed items: " ++ pyListRepr forecasting_errors)
    else
      match check_inventory_risk forecast_results df safety_buffer_percent with
      | none =>
        .error "Failed to generate action plans"
          "Risk assessment returned no results"
      | some plans =>
        if plans.isEmpty then
          .error "Failed to generate action plans"
            "Risk assessment returned no results"
        else
          .success plans (summary_statistics plans df safety_buffer_percent)
            (if forecasting_errors.isEmpty then none
             else some forecasting_errors)

/-- C7: a requested item whose forecast fails is recorded in
`forecasting_errors` and excluded from the forecasts passed on (its failure
never aborts the run); when it succeeds, the run's `forecasting_errors`
payload is exactly that list; and when every requested item fails, the run
returns the NoForecasts error result instead of a success result. -/
theorem forecast_failures_collected_and_no_forecasts_error
    (forecaster : String → Option Forecast) (df : List StockRow)
    (items : List String) (buf : ℚ) (i : String)
    (hi : i ∈ items) (hfail : forecaster i = none) :
    i ∈ items.filter (fun j => (forecaster j).isNone) ∧
    (∀ f ∈ items.filterMap forecaster, ∃ j ∈ items, forecaster j = some f) ∧
    (∀ plans stats errs,
      run_full_assessment forecaster (.ok df) (some items) buf =
        .success plans stats errs →
      errs = some (items.filter (fun j => (forecaster j).isNone))) ∧
    ((∀ j ∈ items, forecaster j = none) →
      run_full_assessment forecaster (.ok df) (some items) buf =
        .error ("Failed to generate forecasts for any items. Tried: " ++
            pyListRepr items)
          ("Failed items: " ++ pyListRepr items)) := by
  have herr : i ∈ items.filter (fun j => (forecaster j).isNone) :=
    List.mem_filter.mpr ⟨hi, by simp [hfail]⟩
  refine ⟨herr, ?_, ?_, ?_⟩
  · intro f hf
    rcases List.mem_filterMap.mp hf with ⟨j, hj, hjf⟩
    exact ⟨j, hj, hjf⟩
  · intro plans stats errs h
    have hne : ¬ (items.filter (fun j => (forecaster j).isNone)).isEmpty := by
      simp only [List.isEmpty_iff]
      exact List.ne_nil_of_mem herr
    unfold run_full_assessment at h
    dsimp only at h
    split at h
    · exact absurd h (by simp)
    · split at h
      · exact absurd h (by simp)
      · split at h
        · exact absurd h (by simp)
        · injection h with _ _ herrs
          rw [← herrs]
          simp [hne]
  · intro hall
    have h1 : items.filterMap forecaster = [] := by
      rw [List.filterMap_eq_nil_iff]
      exact hall
    have h2 : items.filter (fun j => (forecaster j).isNone) = items :=
      List.filter_eq_self.mpr (fun a ha => by simp [hall a ha])
    unfold run_full_assessment
    simp [h1, h2]

/-- A concrete forecaster for the C7 witness: it fails on Chicken and
produces a fixed forecast for any other item. -/
def demoForecaster (nm : String) : Option Forecast :=
  if nm == "Chicken" then none
  else some { item_name := nm, predicted_value := 100, upper_bound := 120,
              lower_bound := 80, confidence_interval_width := 20 }

/-- A concrete one-row stock dataset for the C7 witness. -/
def demoRows : List StockRow :=
  [{ date := 1, item_name := "Paneer", current_stock := 150,
     daily_usage := 40 }]

/-- C7 witness: Chicken fails to forecast among [Paneer, Chicken] and is
recorded in the forecasting-errors list. -/
theorem forecast_failures_collected_witness :
    "Chicken" ∈ ["Paneer", "Chicken"].filter
      (fun j => (demoForecaster j).isNone) :=
  (forecast_failures_collected_and_no_forecasts_error demoForecaster
    demoRows ["Paneer", "Chicken"] 10 "Chicken" (by decide) (by decide)).1

/-- The `impact_metrics` values of a Gemini payload
(intelligence.py, lines 122-126 and 135-139). -/
structure ImpactMetrics where
  co2_saved_kg : ℚ
  meals_provided : ℤ
  cost_saved_inr : ℚ
deriving DecidableEq, Repr

/-- The `impact_metrics` slot of the result dictionary: a metrics
dictionary, or the placeholder string the validation loop substitutes when
the field is absent (intelligence.py, lines 116-119). -/
inductive ImpactField where
  | metrics (m : ImpactMetrics)
  | missing (placeholder : String)
deriving DecidableEq, Repr

/-- The numeric `impact_metrics` sub-dictionary as parsed from the model's
JSON, each entry possibly absent (intelligence.py, lines 122-126). -/
structure ParsedMetrics where
  co2_saved_kg : Option ℚ
  meals_provided : Option ℚ
  cost_saved_inr : Option ℚ
deriving DecidableEq, Repr

/-- A successfully decoded JSON response of the model, each field possibly
absent (intelligence.py, lines 113-126). -/
structure ParsedResponse where
  reasoning : Option String
  ngo_recommendation : Option String
  impact_metrics : Option ParsedMetrics
  handling_instructions : Option String
  confidence_score : Option ℚ
deriving DecidableEq, Repr

/-- Outcome of the external Gemini call plus `json.loads`: decoded JSON, a
`json.JSONDecodeError`, or any other raised exception
(intelligence.py, lines 100-151). -/
inductive AIOutcome where
  | parsed (r : ParsedResponse)
  | jsonDecodeError (msg : String)
  | callError (msg : String)
deriving DecidableEq, Repr

/-- The dictionary `get_prescriptive_json` returns on the non-exception
paths (intelligence.py, lines 113-143). -/
structure GeminiPayload where
  reasoning : String
  ngo_recommendation : String
  impact_metrics : ImpactField
  handling_instructions : String
  confidence_score : Option ℚ
  error : Option String
deriving DecidableEq, Repr

/-- The full result of `get_prescriptive_json`: a payload, or the
`{'error', 'tip', 'item', 'status'}` dictionary of the generic exception
handler (intelligence.py, lines 145-151). -/
inductive GeminiResult where
  | payload (p : GeminiPayload)
  | failure (error tip item status : String)
deriving DecidableEq, Repr

/-- `get_prescriptive_json(item_name, surplus_kg)` (intelligence.py,
lines 24-151), with the external call's outcome as a parameter.  On decoded
JSON the required fields are filled with `[Missing: ...]` placeholders and
the metrics coerced (`float`, `int`, `float`) with the deterministic
defaults; on a JSON decode error the deterministic fallback payload is
returned; on any other exception the generic failure dictionary is. -/
def get_prescriptive_json (item_name : String) (surplus_kg : ℚ)
    (outcome : AIOutcome) : GeminiResult :=
  match outcome with
  | .parsed r =>
    .payload
      { reasoning := r.reasoning.getD "[Missing: reasoning]"
        ngo_recommendation :=
          r.ngo_recommendation.getD "[Missing: ngo_recommendation]"
        impact_metrics :=
          match r.impact_metrics with
          | some m =>
            .metrics
              { co2_saved_kg := m.co2_saved_kg.getD (surplus_kg * (5/2))
                meals_provided :=
                  pyTrunc (m.meals_provided.getD (surplus_kg * 10))
                cost_saved_inr := m.cost_saved_inr.getD (surplus_kg * 250) }
          | none => .missing "[Missing: impact_metrics]"
        handling_instructions :=
          r.handling_instructions.getD "[Missing: handling_instructions]"
        confidence_score := r.confidence_score
        error := none }
  | .jsonDecodeError msg =>
    .payload
      { reasoning := "Failed to parse AI response: " ++ msg
        ngo_recommendation := "Manual review required"
        impact_metrics :=
          .metrics
            { co2_saved_kg := pyRound2 (surplus_kg * (5/2))
              meals_provided := pyTrunc (surplus_kg * 10)
              cost_saved_inr := pyRound2 (surplus_kg * 250) }
        handling_instructions := "Contact restaurant manager for manual handling"
        confidence_score := some 0
        error := some "JSON parsing failed" }
  | .callError msg =>
    .failure msg "Check API key and Gemini 3 Flash model availability"
      item_name "error"

/-- C8 (counterexample): the claim says the fallback metrics are exactly
`qty*2.5`, `qty*10`, `qty*250`; at qty = 0.25 the code returns co2 0.62
(not 0.625) and meals 2 (not 2.5), because it applies `round(·, 2)` and
`int(·)`. -/
theorem fallback_metrics_exact_formula_fails :
    get_prescriptive_json "Rice" (1/4) (.jsonDecodeError "boom") =
      GeminiResult.payload
        { reasoning := "Failed to parse AI response: boom"
          ngo_recommendation := "Manual review required"
          impact_metrics := .metrics
            { co2_saved_kg := 31/50, meals_provided := 2,
              cost_saved_inr := 125/2 }
          handling_instructions := "Contact restaurant manager for manual handling"
          confidence_score := some 0
          error := some "JSON parsing failed" } ∧
    (31/50 : ℚ) ≠ (1/4 : ℚ) * (5/2) ∧ ((2 : ℤ) : ℚ) ≠ (1/4 : ℚ) * 10 := by
  refine ⟨?_, by norm_num, by norm_num⟩
  norm_num [get_prescriptive_json, pyRound2, pyTrunc, roundHalfEven,
    Int.fract, round_eq]
  rfl

/-- C8 (amended): on a JSON decode error, `get_prescriptive_json` returns
(rather than raising) a fully populated fallback payload whose metrics are
computed deterministically from the input quantity — `co2_saved_kg =
round(qty*2.5, 2)`, `meals_provided = int(qty*10)`, `cost_saved_inr =
round(qty*250, 2)` — with `confidence_score = 0`. -/
theorem fallback_payload_on_json_decode_error (item : String) (qty : ℚ)
    (msg : String) :
    get_prescriptive_json item qty (.jsonDecodeError msg) =
      .payload
        { reasoning := "Failed to parse AI response: " ++ msg
          ngo_recommendation := "Manual review required"
          impact_metrics := .metrics
            { co2_saved_kg := pyRound2 (qty * (5/2))
              meals_provided := pyTrunc (qty * 10)
              cost_saved_inr := pyRound2 (qty * 250) }
          handling_instructions := "Contact restaurant manager for manual handling"
          confidence_score := some 0
          error := some "JSON parsing failed" } := rfl

/-- C10: in every result of `detect_stockout_risk`, `has_stockout_risk`
holds exactly when `alert_level` is ALERT or CRITICAL (it is false exactly
for NONE), and an alert level of NONE forces `units_needed = 0`. -/
theorem has_stockout_risk_iff_alert_and_none_units_zero (d cs b : ℚ) :
    ((detect_stockout_risk d cs b).has_stockout_risk = true ↔
      (detect_stockout_risk d cs b).alert_level ≠ .NONE) ∧
    ((detect_stockout_risk d cs b).alert_level = .NONE →
      (detect_stockout_risk d cs b).units_needed = 0) := by
  simp only [detect_stockout_risk]
  split_ifs with h1 h2
  · refine ⟨by simp, fun _ => ?_⟩
    have hmax : max 0 (d + d * (b/100) - cs) = 0 := by
      have : d + d * (b/100) - cs ≤ 0 := by
        simp only [ge_iff_le] at h1; linarith
      exact max_eq_left this
    simp [hmax, pyRound2_zero]
  · simp
  · simp
